import Mathlib

/-!
Verification development for the frontend-technical-assessment repository.

The repository contains three independent browser-UI controllers written in
JavaScript: a blog-list controller (fetch with retry and cache, then
filter / search / sort / paginate an in-memory list), a drag-and-drop widget,
and a responsive navigation bar.  This file gives a shallow embedding of the
parts of those controllers that the stated properties are about, and proves
or refutes each property.

Modelling conventions (documented once here):
* JavaScript strings are Lean `String`; `toLowerCase()` is modelled by
  `lowerStr`, which lowercases each character (ASCII-faithful);
  `String.prototype.includes` is modelled by the executable substring test
  `strIncl`; `localeCompare` is modelled by code-point lexicographic
  comparison `cmpStr` (locale collation details are not modelled, only that
  it is a total comparison).
* `new Date(x).valueOf()` and `parseInt(reading_time)` are modelled by
  storing the already-parsed numeric value in the `Entry` record
  (`published_date`, `reading_time` as `Int`).
* `Array.prototype.sort` with a comparator is stable in JavaScript
  (ES2019); the unique stable sort for the total preorder
  `cmp a b <= 0` is `List.insertionSort`, which is what `applySort` uses.
* The DOM is modelled only as far as the properties need it: container
  children are lists of element values, `classList` is a list of class
  strings, attributes are string fields, `cloneNode` is value copy and
  `remove()` is `List.erase`.
* The network is an oracle `Nat -> AttemptOutcome` giving the outcome of
  each successive `fetch` attempt; `setTimeout` delays are recorded as a
  list of waited milliseconds; `Date.now()` is an explicit `now : Int`
  argument.
-/

/-- A blog entry as delivered by the remote JSON endpoint.  `published_date`
and `reading_time` hold the numeric values the code obtains via
`new Date(...)` and `parseInt(...)`. -/
structure Entry where
  title : String
  author : String
  published_date : Int
  reading_time : Int
  content : String
  category : String
  tags : List String
  image : String
deriving DecidableEq, Repr

/-- Model of `String.prototype.toLowerCase` : lowercase every character. -/
def lowerStr (s : String) : String :=
  ⟨s.data.map Char.toLower⟩

/-- Does the first character list start the second one? -/
def hasPref : List Char → List Char → Bool
  | [], _ => true
  | _ :: _, [] => false
  | a :: as, b :: bs => a = b && hasPref as bs

/-- Does the first character list occur contiguously inside the second? -/
def hasSub (n : List Char) : List Char → Bool
  | [] => n.isEmpty
  | b :: bs => hasPref n (b :: bs) || hasSub n bs

/-- Model of `hay.includes(needle)` for JavaScript strings. -/
def strIncl (hay needle : String) : Bool :=
  hasSub needle.data hay.data

/-- The search predicate of the blog list:
`item.title.toLowerCase().includes(q)` (the query is stored lowercased). -/
def searchPred (q : String) (i : Entry) : Bool :=
  strIncl (lowerStr i.title) q

/-- The filter predicate of the blog list:
`item.category === val || (item.tags && item.tags.includes(val))`. -/
def filterPred (v : String) (i : Entry) : Bool :=
  i.category == v || i.tags.contains v

/-- Apply the category/tag filter criterion: the identity when the criterion
is the empty string (falsy), `items.filter(...)` otherwise. -/
def applyFilter (v : String) (l : List Entry) : List Entry :=
  if v = "" then l else l.filter (filterPred v)

/-- Apply the title-search criterion: the identity when the query is the
empty string (falsy), `items.filter(...)` otherwise. -/
def applySearch (q : String) (l : List Entry) : List Entry :=
  if q = "" then l else l.filter (searchPred q)

/-- Code-point comparison of character lists, the model of `localeCompare`
(negative, zero, positive). -/
def cmpChars : List Char → List Char → Int
  | [], [] => 0
  | [], _ :: _ => -1
  | _ :: _, [] => 1
  | a :: as, b :: bs =>
    if a < b then -1 else if b < a then 1 else cmpChars as bs

/-- String comparison used to model `a.category.localeCompare(b.category)`. -/
def cmpStr (a b : String) : Int :=
  cmpChars a.data b.data

/-- The comparator switch of `onSortChange`: date descending, reading time
descending, category ascending, otherwise 0. -/
def sortCmp (crit : String) (a b : Entry) : Int :=
  if crit = "date" then b.published_date - a.published_date
  else if crit = "reading_time" then b.reading_time - a.reading_time
  else if crit = "category" then cmpStr a.category b.category
  else 0

/-- The non-strict order induced by the comparator, `cmp a b <= 0`; a stable
JavaScript sort keeps `a` before `b` exactly when this holds. -/
abbrev sortRel (crit : String) (a b : Entry) : Prop :=
  sortCmp crit a b ≤ 0

instance (crit : String) : DecidableRel (sortRel crit) :=
  fun a b => inferInstanceAs (Decidable (sortCmp crit a b ≤ 0))

/-- Apply the sort criterion: identity for the empty (falsy) criterion,
otherwise the stable sort by the comparator, as `filteredItems.sort(...)`. -/
def applySort (crit : String) (l : List Entry) : List Entry :=
  if crit = "" then l else l.insertionSort (sortRel crit)

/-- One cache entry of the `Map`-based cache: `{data, timestamp}`. -/
structure CacheEntry where
  data : List Entry
  timestamp : Int
deriving DecidableEq

/-- The mutable fields of the `BlogList` class instance.  The cache `Map` is
keyed solely by the constant `apiUrl`, so it is modelled as the optional
entry stored under that single key. -/
structure BlogState where
  items : List Entry
  filteredItems : List Entry
  page : Nat
  perPage : Nat
  cache : Option CacheEntry
  currentSort : String
  currentFilter : String
  currentSearch : String
deriving DecidableEq

/-- The `BlogList` fields as the constructor initialises them, with `items`
and `filteredItems` set to the fetched array as a successful `fetchData`
leaves them. -/
def initState (data : List Entry) : BlogState :=
  { items := data
    filteredItems := data
    page := 1
    perPage := 10
    cache := none
    currentSort := ""
    currentFilter := ""
    currentSearch := "" }

/-- Handler `onSortChange`: store the criterion, sort `filteredItems` in
place when the criterion is truthy, reset `page` to 1. -/
def onSortChange (v : String) (s : BlogState) : BlogState :=
  { s with
    currentSort := v
    filteredItems := applySort v s.filteredItems
    page := 1 }

/-- Handler `onFilterChange`: store the criterion, refilter from the full
`items`, reapply the current search, reapply the current sort by calling
`onSortChange` when it is truthy, reset `page` to 1. -/
def onFilterChange (v : String) (s : BlogState) : BlogState :=
  let s1 : BlogState :=
    { s with
      currentFilter := v
      filteredItems := applySearch s.currentSearch (applyFilter v s.items) }
  let s2 := if s1.currentSort = "" then s1 else onSortChange s1.currentSort s1
  { s2 with page := 1 }

/-- Handler `onSearchInput`: lowercase and store the query; when the query
is truthy, search over the full `items`, reapply the current filter and then
the current sort; when the query is falsy, reset `filteredItems` to `items`
and delegate to `onFilterChange` when a filter is active.  Finally reset
`page` to 1. -/
def onSearchInput (v : String) (s : BlogState) : BlogState :=
  let q := lowerStr v
  let s2 :=
    if q = "" then
      let s1 : BlogState := { s with currentSearch := q, filteredItems := s.items }
      if s1.currentFilter = "" then s1 else onFilterChange s1.currentFilter s1
    else
      let s1 : BlogState :=
        { s with
          currentSearch := q
          filteredItems := applyFilter s.currentFilter (s.items.filter (searchPred q)) }
      if s1.currentSort = "" then s1 else onSortChange s1.currentSort s1
  { s2 with page := 1 }

/-- One user action on the three list controls. -/
inductive Event where
  | sort (v : String)
  | filt (v : String)
  | search (v : String)

/-- Dispatch one control event to its handler. -/
def step (e : Event) (s : BlogState) : BlogState :=
  match e with
  | .sort v => onSortChange v s
  | .filt v => onFilterChange v s
  | .search v => onSearchInput v s

/-- Run a sequence of control events from a state. -/
def run (evs : List Event) (s : BlogState) : BlogState :=
  evs.foldl (fun t e => step e t) s

/-- The specification pipeline: filter, then search, then sort of the
last-applied criteria, applied to the full `items` array. -/
def pipelineOf (s : BlogState) : List Entry :=
  applySort s.currentSort (applySearch s.currentSearch (applyFilter s.currentFilter s.items))

/-- Which events make the handler rebuild `filteredItems` from `items`:
every filter change, and every search change with a truthy query. -/
def recomputes : Event → Bool
  | .sort _ => false
  | .filt _ => true
  | .search v => !(lowerStr v = "")

/-- What `render` leaves in the list container: the visible entries, or the
no-results notice when the visible slice is empty. -/
inductive RenderOutput where
  | list (shown : List Entry)
  | noResults
deriving DecidableEq

/-- Method `render`: take the first `page * perPage` entries of
`filteredItems`; an empty slice is replaced by the no-results notice. -/
def render (s : BlogState) : RenderOutput :=
  let slice := s.filteredItems.take (s.page * s.perPage)
  if slice.isEmpty then .noResults else .list slice

/-- The body a fetch attempt delivered: a JSON array, some other JSON value
(`Unexpected API response`), or a body on which `res.json()` throws. -/
inductive Body where
  | arr (data : List Entry)
  | nonArr
  | malformed (msg : String)
deriving DecidableEq

/-- Outcome of one `fetch` call: a response with its `ok` flag, status and
body, or a rejected promise (network error). -/
inductive AttemptOutcome where
  | response (ok : Bool) (status : Nat) (body : Body)
  | netErr (msg : String)
deriving DecidableEq

deriving instance DecidableEq for Except

/-- The result of one iteration body of the retry loop: the fetched array,
or the message of the error thrown (`HTTP error! status: ...` on a non-ok
status, `Unexpected API response` on a non-array body, the underlying
message on a network or parse error). -/
def attemptResult : AttemptOutcome → Except String (List Entry)
  | .response ok status body =>
    if ok then
      match body with
      | .arr d => .ok d
      | .nonArr => .error "Unexpected API response"
      | .malformed m => .error m
    else .error ("HTTP error! status: " ++ toString status)
  | .netErr m => .error m

/-- What the retry loop produced: the final result, how many network calls
it made and which inter-attempt delays (in ms) it awaited. -/
structure LoopOut where
  res : Except String (List Entry)
  calls : Nat
  delays : List Nat
deriving DecidableEq

/-- The `while (retries > 0)` loop of `fetchData`, starting at attempt
index `i` with `retries` remaining: on success return the data; on failure
decrement `retries` and, while retries remain, wait `1000 * (3 - retries)`
ms before the next attempt; once exhausted, throw the last error. -/
def fetchLoop (oracle : Nat → AttemptOutcome) : Nat → Nat → Option String → LoopOut
  | _, 0, lastError => ⟨.error (lastError.getD "undefined"), 0, []⟩
  | i, r + 1, _ =>
    match attemptResult (oracle i) with
    | .ok d => ⟨.ok d, 1, []⟩
    | .error m =>
      let rest := fetchLoop oracle (i + 1) r (some m)
      ⟨rest.res, rest.calls + 1, if 0 < r then 1000 * (3 - r) :: rest.delays else rest.delays⟩

/-- Cache validity window: `5 * 60 * 1000` ms. -/
def cacheExpiry : Int := 5 * 60 * 1000

/-- What a `fetchData` call did: its return or thrown error, the state it
left, the network calls it made and the delays it awaited. -/
structure FetchOut where
  result : Except String Unit
  state : BlogState
  calls : Nat
  delays : List Nat

/-- The network branch of `fetchData`: run the retry loop; on success store
the cache entry stamped `now` and set `items` and `filteredItems`; on
exhaustion rethrow the last error wrapped with `Failed to fetch blogs:`. -/
def fetchNetwork (oracle : Nat → AttemptOutcome) (now : Int) (s : BlogState) : FetchOut :=
  match fetchLoop oracle 0 3 none with
  | ⟨.ok d, c, ds⟩ =>
    { result := .ok ()
      state := { s with cache := some ⟨d, now⟩, items := d, filteredItems := d }
      calls := c
      delays := ds }
  | ⟨.error m, c, ds⟩ =>
    { result := .error ("Failed to fetch blogs: " ++ m)
      state := s
      calls := c
      delays := ds }

/-- Method `fetchData`: serve a cached entry younger than `cacheExpiry`
without any network call, otherwise go to the network with three attempts. -/
def fetchData (oracle : Nat → AttemptOutcome) (now : Int) (s : BlogState) : FetchOut :=
  match s.cache with
  | some ce =>
    if now - ce.timestamp < cacheExpiry then
      { result := .ok ()
        state := { s with items := ce.data, filteredItems := ce.data }
        calls := 0
        delays := [] }
    else fetchNetwork oracle now s
  | none => fetchNetwork oracle now s

/-- The DOM pieces `init` touches: the loading indicator `hidden` class,
the error container `hidden` class and text, and the rendered list. -/
structure UIState where
  loadingHidden : Bool
  errorHidden : Bool
  errorText : String
  listContent : Option RenderOutput
deriving DecidableEq

/-- Method `init`: show the loading indicator, await `fetchData`, then
render on success or show the wrapped error on failure; the `finally`
block hides the loading indicator on every path. -/
def init (oracle : Nat → AttemptOutcome) (now : Int) (s : BlogState) (ui : UIState) :
    BlogState × UIState :=
  let ui1 : UIState := { ui with loadingHidden := false }
  let out := fetchData oracle now s
  match out.result with
  | .ok _ =>
    (out.state,
     { ui1 with listContent := some (render out.state), loadingHidden := true })
  | .error m =>
    (out.state,
     { ui1 with
       errorHidden := false
       errorText := "Error: " ++ m
       loadingHidden := true })

/-- A finite script of attempt outcomes, as an oracle; attempts beyond the
script are network errors. -/
def oracleOf (l : List AttemptOutcome) (i : Nat) : AttemptOutcome :=
  l.getD i (.netErr "script exhausted")

/-- A DOM element as far as the drag-and-drop widget inspects it: an
identity and whether it carries the `draggable-item` class.  `cloneNode`
copies the value. -/
structure Elem where
  eid : Nat
  isItem : Bool
deriving DecidableEq

/-- Model of `cloneNode(true)`: a copy of the element value. -/
def cloneNode (x : Elem) : Elem := x

/-- Handler `handleDrop` (mouse path), acting on the children of the target
drop zone and of the dragged element container: append a clone of the
dragged element to the zone and remove the original; the zone is not
cleared first. -/
def handleDrop (x : Elem) (zone parent : List Elem) : List Elem × List Elem :=
  (zone ++ [cloneNode x], parent.erase x)

/-- Handler `handleTouchEnd`, drop branch: remove every existing
`draggable-item` child of the zone, then append a clone of the dragged
element and remove the original. -/
def handleTouchEnd (x : Elem) (zone parent : List Elem) : List Elem × List Elem :=
  ((zone.filter fun e => !e.isItem) ++ [cloneNode x], parent.erase x)

/-- Number of `draggable-item` children of a container. -/
def countItems (l : List Elem) : Nat :=
  (l.filter fun e => e.isItem).length

/-- The navigation state `handleResize` touches: the class list of the
`.nav-list` element and the `aria-expanded` attribute of the toggle. -/
structure NavState where
  navListClasses : List String
  ariaExpanded : String
deriving DecidableEq

/-- Handler `handleResize`: at viewport width 768 and above, remove the
`nav-list--visible` class and set `aria-expanded` to `false`; below 768 do
nothing. -/
def handleResize (width : Nat) (s : NavState) : NavState :=
  if 768 ≤ width then
    { navListClasses := s.navListClasses.filter fun c => c != "nav-list--visible"
      ariaExpanded := "false" }
  else s

/-!  Concrete entries used by counterexamples and witnesses. -/

/-- Concrete entry, category `a`. -/
def entA : Entry := ⟨"ta", "au", 0, 0, "c", "a", [], "i"⟩

/-- Concrete entry, category `b`. -/
def entB : Entry := ⟨"tb", "au", 0, 0, "c", "b", [], "i"⟩

/-- Concrete entry, category `a`, published date 1. -/
def entD1 : Entry := ⟨"t1", "au", 1, 0, "c", "a", [], "i"⟩

/-- Concrete entry, category `a`, published date 2. -/
def entD2 : Entry := ⟨"t2", "au", 2, 0, "c", "a", [], "i"⟩

/-- Concrete state holding a cache entry with data `[entA]` stamped at
time 0. -/
def cachedState : BlogState := { initState [entA] with cache := some ⟨[entA], 0⟩ }

/-!  Helper lemmas about the embedded operations. -/

/-- Two list filters commute. -/
theorem filter_comm_of (p q : Entry → Bool) (l : List Entry) :
    (l.filter p).filter q = (l.filter q).filter p := by
  induction l with
  | nil => rfl
  | cons a t ih =>
    by_cases hp : p a <;> by_cases hq : q a <;>
      simp [List.filter_cons, hp, hq, ih]

/-- The filter criterion commutes with any plain list filter. -/
theorem applyFilter_filter_comm (f : String) (p : Entry → Bool) (l : List Entry) :
    applyFilter f (l.filter p) = (applyFilter f l).filter p := by
  unfold applyFilter
  split
  · rfl
  · exact filter_comm_of p (filterPred f) l

/-- The search and filter criteria commute. -/
theorem applySearch_applyFilter_comm (q f : String) (l : List Entry) :
    applySearch q (applyFilter f l) = applyFilter f (applySearch q l) := by
  unfold applySearch
  split
  · rfl
  · exact (applyFilter_filter_comm f (searchPred q) l).symm

/-- Sorting by any criterion permutes the list. -/
theorem applySort_perm (crit : String) (l : List Entry) :
    (applySort crit l).Perm l := by
  unfold applySort
  split
  · exact List.Perm.refl l
  · exact List.perm_insertionSort _ l

/-- Field-level description of `onFilterChange`: it recomputes
`filteredItems` from `items` through filter, search and sort, stores the
criterion, and leaves `items` and the other criteria alone. -/
theorem onFilterChange_spec (v : String) (s : BlogState) :
    (onFilterChange v s).items = s.items
    ∧ (onFilterChange v s).currentSort = s.currentSort
    ∧ (onFilterChange v s).currentSearch = s.currentSearch
    ∧ (onFilterChange v s).currentFilter = v
    ∧ (onFilterChange v s).filteredItems
        = applySort s.currentSort (applySearch s.currentSearch (applyFilter v s.items)) := by
  by_cases h : s.currentSort = ""
  · simp [onFilterChange, onSortChange, applySort, h]
  · simp [onFilterChange, onSortChange, h]

/-- Field-level description of `onSearchInput` for a truthy query: it
recomputes `filteredItems` from `items` through search, filter and sort,
stores the lowercased query, and leaves `items` and the other criteria
alone. -/
theorem onSearchInput_spec (v : String) (s : BlogState) (hq : lowerStr v ≠ "") :
    (onSearchInput v s).items = s.items
    ∧ (onSearchInput v s).currentSort = s.currentSort
    ∧ (onSearchInput v s).currentFilter = s.currentFilter
    ∧ (onSearchInput v s).currentSearch = lowerStr v
    ∧ (onSearchInput v s).filteredItems
        = applySort s.currentSort
            (applyFilter s.currentFilter (s.items.filter (searchPred (lowerStr v)))) := by
  by_cases h : s.currentSort = ""
  · simp [onSearchInput, onSortChange, applySort, hq, h]
  · simp [onSearchInput, onSortChange, hq, h]

/-- Running an event sequence with a final event is stepping that event
after running the prefix. -/
theorem run_append_singleton (pre : List Event) (e : Event) (s : BlogState) :
    run (pre ++ [e]) s = step e (run pre s) := by
  simp [run, List.foldl_append]

/-- The retry loop makes at most `retries` network calls. -/
theorem fetchLoop_calls_le (oracle : Nat → AttemptOutcome) :
    ∀ (r i : Nat) (le : Option String), (fetchLoop oracle i r le).calls ≤ r := by
  intro r
  induction r with
  | zero => intro i le; simp [fetchLoop]
  | succ n ih =>
    intro i le
    cases h : attemptResult (oracle i) with
    | ok d => simp [fetchLoop, h]
    | error m => simp [fetchLoop, h]; exact ih (i + 1) (some m)

/-- With at least one retry remaining, the loop makes at least one call. -/
theorem fetchLoop_calls_pos (oracle : Nat → AttemptOutcome) (r i : Nat) (le : Option String) :
    1 ≤ (fetchLoop oracle i (r + 1) le).calls := by
  cases h : attemptResult (oracle i) with
  | ok d => simp [fetchLoop, h]
  | error m => simp [fetchLoop, h]

/-- Full run of the loop when all three attempts fail: the last error is
surfaced, three calls are made, and the delays are 1000 ms then 2000 ms. -/
theorem fetchLoop_three_err (oracle : Nat → AttemptOutcome) (m0 m1 m2 : String)
    (h0 : attemptResult (oracle 0) = .error m0)
    (h1 : attemptResult (oracle 1) = .error m1)
    (h2 : attemptResult (oracle 2) = .error m2) :
    fetchLoop oracle 0 3 none = ⟨.error m2, 3, [1000, 2000]⟩ := by
  have e2 : fetchLoop oracle 2 1 (some m1) = ⟨.error m2, 1, []⟩ := by
    show fetchLoop oracle 2 (0 + 1) (some m1) = _
    rw [fetchLoop]
    simp [h2, fetchLoop]
  have e1 : fetchLoop oracle 1 2 (some m0) = ⟨.error m2, 2, [2000]⟩ := by
    show fetchLoop oracle 1 (1 + 1) (some m0) = _
    rw [fetchLoop]
    simp [h1, e2]
  show fetchLoop oracle 0 (2 + 1) none = _
  rw [fetchLoop]
  simp [h0, e1]

/-- Full run of the loop when the first two attempts fail and the third
succeeds: the data is returned, three calls are made, and the delays are
1000 ms then 2000 ms. -/
theorem fetchLoop_two_err_then_ok (oracle : Nat → AttemptOutcome) (m0 m1 : String)
    (d : List Entry)
    (h0 : attemptResult (oracle 0) = .error m0)
    (h1 : attemptResult (oracle 1) = .error m1)
    (h2 : attemptResult (oracle 2) = .ok d) :
    fetchLoop oracle 0 3 none = ⟨.ok d, 3, [1000, 2000]⟩ := by
  have e2 : fetchLoop oracle 2 1 (some m1) = ⟨.ok d, 1, []⟩ := by
    show fetchLoop oracle 2 (0 + 1) (some m1) = _
    rw [fetchLoop]
    simp [h2]
  have e1 : fetchLoop oracle 1 2 (some m0) = ⟨.ok d, 2, [2000]⟩ := by
    show fetchLoop oracle 1 (1 + 1) (some m0) = _
    rw [fetchLoop]
    simp [h1, e2]
  show fetchLoop oracle 0 (2 + 1) none = _
  rw [fetchLoop]
  simp [h0, e1]

/-- The network branch makes exactly the calls of the retry loop. -/
theorem fetchNetwork_calls (oracle : Nat → AttemptOutcome) (now : Int) (s : BlogState) :
    (fetchNetwork oracle now s).calls = (fetchLoop oracle 0 3 none).calls := by
  cases hl : fetchLoop oracle 0 3 none with
  | mk res c ds => cases res <;> simp [fetchNetwork, hl]

/-- C1, counterexample.  The claim states that after any sequence of
handler invocations the final `filteredItems` equals filter, then search,
then the last sort applied to `items`.  It fails: sorting by category and
then clearing the search box while no filter is active resets
`filteredItems` to the unsorted `items`, because the falsy-query branch of
`onSearchInput` never reapplies the current sort. -/
theorem c1_counterexample :
    (run [Event.sort "category", Event.search ""] (initState [entB, entA])).filteredItems
      ≠ pipelineOf (run [Event.sort "category", Event.search ""] (initState [entB, entA])) := by
  decide

/-- C1 (amended): for every items array and every sequence of handler
invocations whose last invocation is a filter change or a search change
with a truthy query, the final `filteredItems` equals applying the filter
predicate, then the search predicate, then the sort comparator of the
last-applied criteria to the full `items` array. -/
theorem c1_amended_trailing_recompute (data : List Entry) (pre : List Event) (e : Event)
    (h : recomputes e = true) :
    (run (pre ++ [e]) (initState data)).filteredItems
      = pipelineOf (run (pre ++ [e]) (initState data)) := by
  rw [run_append_singleton]
  set s := run pre (initState data) with hs
  cases e with
  | sort v => simp [recomputes] at h
  | filt v =>
    obtain ⟨hi, hso, hse, hf, hfi⟩ := onFilterChange_spec v s
    show (onFilterChange v s).filteredItems = pipelineOf (onFilterChange v s)
    rw [hfi]
    unfold pipelineOf
    rw [hi, hso, hse, hf]
  | search v =>
    have hq : lowerStr v ≠ "" := by simpa [recomputes] using h
    obtain ⟨hi, hso, hf, hse, hfi⟩ := onSearchInput_spec v s hq
    show (onSearchInput v s).filteredItems = pipelineOf (onSearchInput v s)
    rw [hfi]
    unfold pipelineOf
    rw [hi, hso, hf, hse]
    congr 1
    rw [show s.items.filter (searchPred (lowerStr v)) = applySearch (lowerStr v) s.items from by
      simp [applySearch, hq]]
    rw [← applySearch_applyFilter_comm]

/-- C1 witness: the amended theorem applied at a concrete input. -/
theorem c1_amended_witness :
    recomputes (Event.filt "a") = true
    ∧ (run ([] ++ [Event.filt "a"]) (initState [entA])).filteredItems
        = pipelineOf (run ([] ++ [Event.filt "a"]) (initState [entA])) :=
  ⟨by decide, c1_amended_trailing_recompute [entA] [] (Event.filt "a") (by decide)⟩

/-- C2, counterexample.  The claim states that all three handlers,
including `onSortChange`, recompute `filteredItems` from the full `items`
array.  It fails: `onSortChange` only reorders the current `filteredItems`
(a stable sort), so entries tied under the new comparator keep the order a
previous different sort gave them instead of the order recomputation from
`items` would give. -/
theorem c2_counterexample :
    (onSortChange "category" (run [Event.sort "date"] (initState [entD1, entD2]))).filteredItems
      ≠ applySort "category"
          (applySearch (run [Event.sort "date"] (initState [entD1, entD2])).currentSearch
            (applyFilter (run [Event.sort "date"] (initState [entD1, entD2])).currentFilter
              (run [Event.sort "date"] (initState [entD1, entD2])).items)) := by
  decide

/-- C2 (amended): the filter-change handler, and the search-change handler
on a truthy query, recompute `filteredItems` from the full `items` array
reapplying the other two active criteria; the sort-change handler instead
only reorders the current `filteredItems` by a stable sort. -/
theorem c2_amended_handler_recompute (v : String) (s : BlogState) :
    (onFilterChange v s).filteredItems
        = applySort s.currentSort (applySearch s.currentSearch (applyFilter v s.items))
    ∧ (lowerStr v ≠ "" →
        (onSearchInput v s).filteredItems
          = applySort s.currentSort (applySearch (lowerStr v) (applyFilter s.currentFilter s.items)))
    ∧ (onSortChange v s).filteredItems = applySort v s.filteredItems := by
  refine ⟨(onFilterChange_spec v s).2.2.2.2, ?_, rfl⟩
  intro hq
  rw [(onSearchInput_spec v s hq).2.2.2.2]
  congr 1
  rw [show s.items.filter (searchPred (lowerStr v)) = applySearch (lowerStr v) s.items from by
    simp [applySearch, hq]]
  rw [← applySearch_applyFilter_comm]

/-- C2 witness: the amended theorem applied at a concrete input. -/
theorem c2_amended_witness :
    (onFilterChange "a" (initState [entA, entB])).filteredItems
        = applySort (initState [entA, entB]).currentSort
            (applySearch (initState [entA, entB]).currentSearch
              (applyFilter "a" (initState [entA, entB]).items))
    ∧ (onSearchInput "a" (initState [entA, entB])).filteredItems
        = applySort (initState [entA, entB]).currentSort
            (applySearch (lowerStr "a")
              (applyFilter (initState [entA, entB]).currentFilter (initState [entA, entB]).items))
    ∧ (onSortChange "a" (initState [entA, entB])).filteredItems
        = applySort "a" (initState [entA, entB]).filteredItems :=
  ⟨(c2_amended_handler_recompute "a" (initState [entA, entB])).1,
   (c2_amended_handler_recompute "a" (initState [entA, entB])).2.1 (by decide),
   (c2_amended_handler_recompute "a" (initState [entA, entB])).2.2⟩

/-- C3: after every invocation of any of the three criterion-change
handlers, the pagination cursor `page` equals 1, whatever the prior
state. -/
theorem c3_page_resets_to_one (e : Event) (s : BlogState) : (step e s).page = 1 := by
  cases e <;> rfl

/-- C10: the sort-change handler only reorders `filteredItems` (the
multiset of entries is unchanged) and modifies neither `items` nor
`currentFilter` nor `currentSearch`. -/
theorem c10_sort_reorders_only (v : String) (s : BlogState) :
    (onSortChange v s).filteredItems.Perm s.filteredItems
    ∧ (onSortChange v s).items = s.items
    ∧ (onSortChange v s).currentFilter = s.currentFilter
    ∧ (onSortChange v s).currentSearch = s.currentSearch :=
  ⟨applySort_perm v s.filteredItems, rfl, rfl, rfl⟩

/-- C4: `render` displays exactly the first
`min(page * perPage, filteredItems.length)` entries of `filteredItems`,
never more than `page * perPage`, and replaces the content with the
no-results notice exactly when that slice is empty. -/
theorem c4_render_window (s : BlogState) :
    (∀ l, render s = RenderOutput.list l →
        l = s.filteredItems.take (s.page * s.perPage)
        ∧ l.length = min (s.page * s.perPage) s.filteredItems.length
        ∧ l.length ≤ s.page * s.perPage)
    ∧ ((s.filteredItems.take (s.page * s.perPage)).isEmpty = true →
        render s = RenderOutput.noResults) := by
  constructor
  · intro l hl
    by_cases h : (s.filteredItems.take (s.page * s.perPage)).isEmpty
    · simp [render, h] at hl
    · simp [render, h] at hl
      subst hl
      exact ⟨rfl, List.length_take _ _, by simp [List.length_take]⟩
  · intro h
    simp [render, h]

/-- C4 witness: the theorem applied at one rendering state and one empty
state. -/
theorem c4_render_window_witness :
    ([entA] = (initState [entA]).filteredItems.take
        ((initState [entA]).page * (initState [entA]).perPage)
      ∧ [entA].length = min ((initState [entA]).page * (initState [entA]).perPage)
          (initState [entA]).filteredItems.length
      ∧ [entA].length ≤ (initState [entA]).page * (initState [entA]).perPage)
    ∧ render (initState []) = RenderOutput.noResults :=
  ⟨(c4_render_window (initState [entA])).1 [entA] (by decide),
   (c4_render_window (initState [])).2 (by decide)⟩

/-- C5: for an uncached URL `fetchData` makes at most three network
attempts; when the first two attempts fail and the third succeeds it
returns the successful data after exactly the two inter-attempt delays of
1000 ms and 2000 ms. -/
theorem c5_retry_behavior (oracle : Nat → AttemptOutcome) (now : Int) (s : BlogState)
    (h : s.cache = none) :
    (fetchData oracle now s).calls ≤ 3
    ∧ (∀ m0 m1 d,
        attemptResult (oracle 0) = .error m0 →
        attemptResult (oracle 1) = .error m1 →
        attemptResult (oracle 2) = .ok d →
        (fetchData oracle now s).result = .ok ()
        ∧ (fetchData oracle now s).state.items = d
        ∧ (fetchData oracle now s).state.filteredItems = d
        ∧ (fetchData oracle now s).calls = 3
        ∧ (fetchData oracle now s).delays = [1000, 2000]) := by
  have hnet : fetchData oracle now s = fetchNetwork oracle now s := by
    simp [fetchData, h]
  constructor
  · rw [hnet, fetchNetwork_calls]
    exact fetchLoop_calls_le oracle 3 0 none
  · intro m0 m1 d h0 h1 h2
    have hl := fetchLoop_two_err_then_ok oracle m0 m1 d h0 h1 h2
    rw [hnet]
    simp [fetchNetwork, hl]

/-- C5 witness: a concrete oracle whose first attempt has a non-ok HTTP
status, second has a non-array body, and third succeeds. -/
theorem c5_retry_witness :
    (fetchData (oracleOf [.response false 500 (.arr []), .response true 200 .nonArr,
        .response true 200 (.arr [entA])]) 0 (initState [])).result = .ok ()
    ∧ (fetchData (oracleOf [.response false 500 (.arr []), .response true 200 .nonArr,
        .response true 200 (.arr [entA])]) 0 (initState [])).state.items = [entA]
    ∧ (fetchData (oracleOf [.response false 500 (.arr []), .response true 200 .nonArr,
        .response true 200 (.arr [entA])]) 0 (initState [])).state.filteredItems = [entA]
    ∧ (fetchData (oracleOf [.response false 500 (.arr []), .response true 200 .nonArr,
        .response true 200 (.arr [entA])]) 0 (initState [])).calls = 3
    ∧ (fetchData (oracleOf [.response false 500 (.arr []), .response true 200 .nonArr,
        .response true 200 (.arr [entA])]) 0 (initState [])).delays = [1000, 2000] :=
  (c5_retry_behavior (oracleOf [.response false 500 (.arr []), .response true 200 .nonArr,
      .response true 200 (.arr [entA])]) 0 (initState []) rfl).2
    "HTTP error! status: 500" "Unexpected API response" [entA]
    (by decide) (by decide) (by decide)

/-- C6, counterexample.  The claim states that a `fetchData` call made at
or after expiry issues a new network call and repopulates the cache.  The
network call happens, but when every attempt fails the cache is never
written: the stale entry with its old timestamp survives. -/
theorem c6_counterexample :
    cacheExpiry ≤ (300000 : Int) - 0
    ∧ 1 ≤ (fetchData (oracleOf []) 300000 cachedState).calls
    ∧ (fetchData (oracleOf []) 300000 cachedState).state.cache = some ⟨[entA], 0⟩
    ∧ Option.map CacheEntry.timestamp
        ((fetchData (oracleOf []) 300000 cachedState).state.cache) ≠ some 300000 := by
  decide

/-- C6 (amended): a `fetchData` call within the 5-minute window of a cache
entry uses the cached data and issues no network call; a call at or after
expiry issues at least one network call and, when the retry loop succeeds,
repopulates the cache with the fresh data stamped at the call time (on
total failure the stale entry is left in place). -/
theorem c6_amended_cache (oracle : Nat → AttemptOutcome) (s : BlogState) (d : List Entry)
    (t now : Int) (h : s.cache = some ⟨d, t⟩) :
    (now - t < cacheExpiry →
        fetchData oracle now s
          = { result := .ok ()
              state := { s with items := d, filteredItems := d }
              calls := 0
              delays := [] })
    ∧ (cacheExpiry ≤ now - t →
        1 ≤ (fetchData oracle now s).calls
        ∧ ∀ d2, (fetchLoop oracle 0 3 none).res = .ok d2 →
            (fetchData oracle now s).state.cache = some ⟨d2, now⟩
            ∧ (fetchData oracle now s).state.items = d2) := by
  constructor
  · intro hlt
    simp [fetchData, h, hlt]
  · intro hge
    have hnet : fetchData oracle now s = fetchNetwork oracle now s := by
      simp [fetchData, h, not_lt.mpr hge]
    constructor
    · rw [hnet, fetchNetwork_calls]
      exact fetchLoop_calls_pos oracle 2 0 none
    · intro d2 hd2
      rw [hnet]
      cases hl : fetchLoop oracle 0 3 none with
      | mk res c ds =>
        rw [hl] at hd2
        simp at hd2
        subst hd2
        simp [fetchNetwork, hl]

/-- C6 witness: the amended theorem applied at a concrete fresh-cache
input. -/
theorem c6_amended_witness :
    fetchData (oracleOf []) 1 cachedState
      = { result := .ok ()
          state := { cachedState with items := [entA], filteredItems := [entA] }
          calls := 0
          delays := [] } :=
  (c6_amended_cache (oracleOf []) cachedState [entA] 0 1 rfl).1 (by decide)

/-- C7: `init` hides the loading indicator on exit for every outcome of
`fetchData`; and when every retry attempt fails — whether with an HTTP
error status, a malformed body or a non-array response, all of which reach
this point as the same kind of thrown error — it shows the error container
with the text of the last error wrapped by the `Failed to fetch blogs:`
prefix. -/
theorem c7_init_loading_error (oracle : Nat → AttemptOutcome) (now : Int)
    (s : BlogState) (ui : UIState) :
    ((init oracle now s ui).2.loadingHidden = true)
    ∧ (∀ m0 m1 m2, s.cache = none →
        attemptResult (oracle 0) = .error m0 →
        attemptResult (oracle 1) = .error m1 →
        attemptResult (oracle 2) = .error m2 →
        (init oracle now s ui).2.errorHidden = false
        ∧ (init oracle now s ui).2.errorText
            = "Error: " ++ ("Failed to fetch blogs: " ++ m2)) := by
  constructor
  · cases hres : (fetchData oracle now s).result with
    | ok u => simp [init, hres]
    | error m => simp [init, hres]
  · intro m0 m1 m2 hc h0 h1 h2
    have hl := fetchLoop_three_err oracle m0 m1 m2 h0 h1 h2
    have hres : fetchData oracle now s
        = { result := .error ("Failed to fetch blogs: " ++ m2)
            state := s
            calls := 3
            delays := [1000, 2000] } := by
      simp [fetchData, hc, fetchNetwork, hl]
    simp [init, hres]

/-- C7 witness: a concrete oracle failing with an HTTP error status, then
a non-array body, then a parse error; the last message is surfaced. -/
theorem c7_init_witness :
    ((init (oracleOf [.response false 500 (.arr []), .response true 200 .nonArr,
        .response true 200 (.malformed "SyntaxError")]) 0 (initState [])
        ⟨true, true, "", none⟩).2.loadingHidden = true)
    ∧ ((init (oracleOf [.response false 500 (.arr []), .response true 200 .nonArr,
        .response true 200 (.malformed "SyntaxError")]) 0 (initState [])
        ⟨true, true, "", none⟩).2.errorHidden = false
      ∧ (init (oracleOf [.response false 500 (.arr []), .response true 200 .nonArr,
        .response true 200 (.malformed "SyntaxError")]) 0 (initState [])
        ⟨true, true, "", none⟩).2.errorText
          = "Error: " ++ ("Failed to fetch blogs: " ++ "SyntaxError")) :=
  ⟨(c7_init_loading_error (oracleOf [.response false 500 (.arr []), .response true 200 .nonArr,
      .response true 200 (.malformed "SyntaxError")]) 0 (initState []) ⟨true, true, "", none⟩).1,
   (c7_init_loading_error (oracleOf [.response false 500 (.arr []), .response true 200 .nonArr,
      .response true 200 (.malformed "SyntaxError")]) 0 (initState []) ⟨true, true, "", none⟩).2
     "HTTP error! status: 500" "Unexpected API response" "SyntaxError"
     rfl (by decide) (by decide) (by decide)⟩

/-- Filtering away the draggable items leaves nothing the item filter
keeps. -/
theorem filter_items_of_cleared (l : List Elem) :
    ((l.filter fun e => !e.isItem).filter fun e => e.isItem) = [] := by
  induction l with
  | nil => rfl
  | cons a t ih => by_cases h : a.isItem <;> simp [List.filter_cons, h, ih]

/-- C8, counterexample.  The claim states that both the mouse drop handler
and the touch-end handler leave the clone as the sole draggable item of the
zone.  The mouse `handleDrop` never clears the zone: dropping onto a zone
already holding one draggable item leaves two. -/
theorem c8_counterexample :
    countItems (handleDrop ⟨2, true⟩ [⟨1, true⟩] [⟨2, true⟩]).1 = 2
    ∧ ¬ countItems (handleDrop ⟨2, true⟩ [⟨1, true⟩] [⟨2, true⟩]).1 ≤ 1 := by
  decide

/-- C8 (amended): both handlers remove the dragged item from its original
parent and append a clone of it to the zone; the touch-end handler first
clears the existing draggable items so the clone is the sole draggable
item of the zone, while the mouse drop handler appends without clearing,
so the zone may keep previously dropped items. -/
theorem c8_amended_drop (x : Elem) (zone parent : List Elem) (hx : x.isItem = true) :
    countItems (handleTouchEnd x zone parent).1 = 1
    ∧ (handleTouchEnd x zone parent).1 = (zone.filter fun e => !e.isItem) ++ [cloneNode x]
    ∧ (handleTouchEnd x zone parent).2 = parent.erase x
    ∧ (handleDrop x zone parent).1 = zone ++ [cloneNode x]
    ∧ (handleDrop x zone parent).2 = parent.erase x := by
  refine ⟨?_, rfl, rfl, rfl, rfl⟩
  simp [countItems, handleTouchEnd, cloneNode, List.filter_append,
    filter_items_of_cleared, hx]

/-- C8 witness: the amended theorem applied to a drop onto an occupied
zone. -/
theorem c8_amended_drop_witness :
    countItems (handleTouchEnd ⟨2, true⟩ [⟨1, true⟩] [⟨2, true⟩]).1 = 1
    ∧ (handleTouchEnd ⟨2, true⟩ [⟨1, true⟩] [⟨2, true⟩]).1
        = ([⟨1, true⟩].filter fun e => !e.isItem) ++ [cloneNode ⟨2, true⟩]
    ∧ (handleTouchEnd ⟨2, true⟩ [⟨1, true⟩] [⟨2, true⟩]).2 = [⟨2, true⟩].erase ⟨2, true⟩
    ∧ (handleDrop ⟨2, true⟩ [⟨1, true⟩] [⟨2, true⟩]).1 = [⟨1, true⟩] ++ [cloneNode ⟨2, true⟩]
    ∧ (handleDrop ⟨2, true⟩ [⟨1, true⟩] [⟨2, true⟩]).2 = [⟨2, true⟩].erase ⟨2, true⟩ :=
  c8_amended_drop ⟨2, true⟩ [⟨1, true⟩] [⟨2, true⟩] (by decide)

/-- C9: any resize with the viewport wider than 768 px removes the
`nav-list--visible` class and sets `aria-expanded` to `false`; any resize
with the viewport narrower than 768 px changes nothing. -/
theorem c9_resize_closes_menu (w : Nat) (s : NavState) :
    (768 < w →
        ("nav-list--visible" ∉ (handleResize w s).navListClasses)
        ∧ (handleResize w s).ariaExpanded = "false")
    ∧ (w < 768 → handleResize w s = s) := by
  constructor
  · intro hw
    have h : 768 ≤ w := le_of_lt hw
    constructor
    · intro hmem
      simp [handleResize, h, List.mem_filter] at hmem
    · simp [handleResize, h]
  · intro hw
    simp [handleResize, Nat.not_le.mpr hw]

/-- C9 witness: the theorem applied at widths 800 and 700 on a state with
the menu open. -/
theorem c9_resize_witness :
    (("nav-list--visible"
        ∉ (handleResize 800 ⟨["nav-list", "nav-list--visible"], "true"⟩).navListClasses)
      ∧ (handleResize 800 ⟨["nav-list", "nav-list--visible"], "true"⟩).ariaExpanded = "false")
    ∧ handleResize 700 ⟨["nav-list", "nav-list--visible"], "true"⟩
        = ⟨["nav-list", "nav-list--visible"], "true"⟩ :=
  ⟨(c9_resize_closes_menu 800 ⟨["nav-list", "nav-list--visible"], "true"⟩).1 (by decide),
   (c9_resize_closes_menu 700 ⟨["nav-list", "nav-list--visible"], "true"⟩).2 (by decide)⟩
